import Mathlib

/-
Verification of the tgmusicbot relay (src/musicbot1.py) against its
natural-language specification.

The Python handlers are shallowly embedded as pure Lean functions.
Collaborator outcomes (the extraction library, chat-client network calls,
the filesystem) are supplied as explicit environment values, and the
handlers return a trace of observable effects together with the resulting
set of files in the download directory.
-/

namespace MusicBot

/-- Whitespace characters removed by Python str.strip with no argument. -/
def pyIsSpace (c : Char) : Bool :=
  c = ' ' || c = '\t' || c = '\n' || c = '\r' || c = '\x0b' || c = '\x0c'

/-- Python str.strip: remove leading and trailing whitespace. -/
def pyStrip (s : String) : String :=
  ⟨((s.data.dropWhile pyIsSpace).reverse.dropWhile pyIsSpace).reverse⟩

/-- Line 16 of the source: TOKEN = os.getenv BOT_TOKEN or input(...).strip().
Python treats an empty string as falsy, so an empty env var also falls
back to the interactive prompt, whose answer is stripped. -/
def configToken (envTok : Option String) (interactive : String) : String :=
  match envTok with
  | some t => if t = "" then pyStrip interactive else t
  | none => pyStrip interactive

/-- Split a character list at every occurrence of a separator; the result
is always non-empty. -/
def splitOnChar (c : Char) : List Char → List (List Char)
  | [] => [[]]
  | x :: xs =>
    match splitOnChar c xs with
    | [] => [[x]]
    | y :: ys => if x = c then [] :: y :: ys else (x :: y) :: ys

/-- pathlib Path.name: the final path component. -/
def pathName (p : String) : String :=
  String.mk ((splitOnChar '/' p.data).getLastD [])

/-- pathlib Path.stem: the final component without its last suffix.
A suffix exists only when the last dot is neither the first nor the last
character of the name. -/
def pathStem (p : String) : String :=
  let n := pathName p
  let parts := splitOnChar '.' n.data
  let cand := String.mk (List.intercalate ['.'] parts.dropLast)
  if parts.length ≤ 1 then n
  else if parts.getLastD [] = [] then n
  else if cand = "" then n
  else cand

/-- One entry of the extraction result: optional title metadata and the
local file path computed by prepare_filename. -/
structure Entry where
  title : Option String
  filepath : String
deriving Repr, DecidableEq

/-- Line 58 of the source: title = entry.get("title") or filepath.stem.
Python or also falls through on an empty string title. -/
def displayTitle (e : Entry) : String :=
  match e.title with
  | some t => if t = "" then pathStem e.filepath else t
  | none => pathStem e.filepath

/-- Observable effects of the song handler, in program order. -/
inductive Effect where
  | replyText (text : String)
  | extractInfo (query : String)
  | editText (text : String)
  | sendDocument (filename caption : String)
  | unlink (path : String)
deriving Repr, DecidableEq

/-- Outcomes of the collaborators consulted by one song invocation.
extract is the result of ydl.extract_info (an exception message or the
entries list); each editFoundErr / sendDocErr / editDoneErr is the
exception message raised by that awaited chat call, none meaning success;
unlinkOk tells whether filepath.unlink succeeded. -/
structure SongEnv where
  extract : Except String (List Entry)
  editFoundErr : Option String
  sendDocErr : Option String
  unlinkOk : Bool
  editDoneErr : Option String

/-- The download directory gains the file (set semantics). -/
def addFile (files : List String) (p : String) : List String :=
  if files.contains p then files else p :: files

/-- filepath.unlink: the file is no longer present afterwards. -/
def removeFile (files : List String) (p : String) : List String :=
  files.filter (fun q => q ≠ p)

/-- Lines 45-80 of the source: the song command handler.  Returns the
effect trace and the final contents of the download directory.  The
whole body after the searching reply sits in a try whose except edits
the status message to the exception text; the unlink has its own inner
try whose failure is swallowed. -/
def song_cmd (env : SongEnv) (args : List String) (files0 : List String) :
    List Effect × List String :=
  if args.isEmpty then
    ([Effect.replyText "Usage: /song <song name>"], files0)
  else
    let query := String.intercalate " " args
    let pre : List Effect :=
      [Effect.replyText ("Searching for “" ++ query ++ "”..."),
       Effect.extractInfo query]
    match env.extract with
    | Except.error e => (pre ++ [Effect.editText ("Error: " ++ e)], files0)
    | Except.ok [] =>
        (pre ++ [Effect.editText "Error: list index out of range"], files0)
    | Except.ok (entry :: _) =>
      let files1 := addFile files0 entry.filepath
      let title := displayTitle entry
      match env.editFoundErr with
      | some e => (pre ++ [Effect.editText ("Error: " ++ e)], files1)
      | none =>
        let found := Effect.editText ("Found: " ++ title ++ "\nUploading…")
        match env.sendDocErr with
        | some e => (pre ++ [found, Effect.editText ("Error: " ++ e)], files1)
        | none =>
          let send := Effect.sendDocument (pathName entry.filepath) title
          let unl := Effect.unlink entry.filepath
          let files2 :=
            if env.unlinkOk then removeFile files1 entry.filepath else files1
          match env.editDoneErr with
          | some e =>
              (pre ++ [found, send, unl, Effect.editText ("Error: " ++ e)],
               files2)
          | none =>
              (pre ++ [found, send, unl, Effect.editText "Done! 🎵"], files2)

/-- The texts the status message passes through: its creating reply and
every in-place edit, in order. -/
def statusTexts (tr : List Effect) : List String :=
  tr.filterMap fun e =>
    match e with
    | Effect.replyText t => some t
    | Effect.editText t => some t
    | _ => none

/-- The message of the first exception that reaches the outer except of
song_cmd, if any: extraction failure, IndexError on an empty entries
list, or a failing awaited chat call inside the try.  unlink failures
never reach it (inner try). -/
def songFirstFailure (env : SongEnv) : Option String :=
  match env.extract with
  | Except.error e => some e
  | Except.ok [] => some "list index out of range"
  | Except.ok (_ :: _) =>
    match env.editFoundErr with
    | some e => some e
    | none =>
      match env.sendDocErr with
      | some e => some e
      | none => env.editDoneErr

/-- HTTP responses of the webhook endpoint. -/
inductive WebhookResponse where
  | forbidden
  | okTrue
  | serverError (msg : String)
deriving Repr, DecidableEq

/-- HTTP status code of each webhook response. -/
def statusCode : WebhookResponse → Nat
  | WebhookResponse.forbidden => 403
  | WebhookResponse.okTrue => 200
  | WebhookResponse.serverError _ => 500

/-- Response body: the forbidden branch returns Response(status_code=403)
with no body; success returns the JSON object with field ok = true. -/
structure JsonOk where
  ok : Bool
deriving Repr, DecidableEq

def responseBody : WebhookResponse → Option JsonOk
  | WebhookResponse.forbidden => none
  | WebhookResponse.okTrue => some ⟨true⟩
  | WebhookResponse.serverError _ => none

/-- An inbound update, opaque to this relay. -/
structure UpdateObj where
  payload : String
deriving Repr, DecidableEq

/-- Lines 94-102 of the source: POST /{token}.  body is the outcome of
await request.json() followed by Update.de_json: either the decoded
update or the exception message of a malformed body, which propagates
before the enqueue. -/
def telegram_webhook (cfgToken tok : String) (body : Except String UpdateObj)
    (queue : List UpdateObj) : WebhookResponse × List UpdateObj :=
  if tok ≠ cfgToken then (WebhookResponse.forbidden, queue)
  else
    match body with
    | Except.error e => (WebhookResponse.serverError e, queue)
    | Except.ok u => (WebhookResponse.okTrue, queue ++ [u])

/-- State of the chat client singleton. -/
structure AppState where
  initialized : Bool
  running : Bool
  webhookSet : Bool
deriving Repr, DecidableEq

/-- Modelled from the spec: the chat client's webhook deregistration call
(application.bot.delete_webhook), an opaque collaborator capability; it
fails once the client's internal resources have been torn down. -/
def delete_webhook (s : AppState) : Except String AppState :=
  if s.initialized then Except.ok { s with webhookSet := false }
  else Except.error "bot was not initialized"

/-- Modelled from the spec: stop the chat client's processing loop. -/
def appStop (s : AppState) : AppState := { s with running := false }

/-- Modelled from the spec: tear down the chat client's internal
resources. -/
def appShutdown (s : AppState) : AppState := { s with initialized := false }

/-- Lines 115-122 of the source: the shutdown hook.  delete_webhook sits
in a try whose except swallows any failure; then stop and shutdown run
unconditionally. -/
def on_shutdown (s : AppState) : Except String AppState :=
  let s1 :=
    match delete_webhook s with
    | Except.ok t => t
    | Except.error _ => s
  Except.ok (appShutdown (appStop s1))

/-- Lines 90-92 of the source: GET /health ignores all process state and
returns 200 with body ok = true. -/
def health (_s : AppState) : Nat × JsonOk := (200, ⟨true⟩)

/-- C1: for a /song invocation with a non-empty argument list where
extraction returns at least one entry and every subsequent chat and
filesystem operation succeeds, the status message passes exactly through
the searching, found/uploading and done texts in that order, and the
downloaded file is no longer in the download directory when the final
edit is made. -/
theorem song_success_trace (env : SongEnv) (args : List String)
    (files0 : List String) (entry : Entry) (rest : List Entry)
    (hargs : args ≠ [])
    (hx : env.extract = Except.ok (entry :: rest))
    (h1 : env.editFoundErr = none) (h2 : env.sendDocErr = none)
    (h3 : env.editDoneErr = none) (h4 : env.unlinkOk = true) :
    statusTexts (song_cmd env args files0).1 =
      ["Searching for “" ++ String.intercalate " " args ++ "”...",
       "Found: " ++ displayTitle entry ++ "\nUploading…",
       "Done! 🎵"] ∧
    entry.filepath ∉ (song_cmd env args files0).2 := by
  have hne : args.isEmpty = false := by
    cases args with
    | nil => exact absurd rfl hargs
    | cons a as => rfl
  constructor
  · simp [song_cmd, hne, hx, h1, h2, h3, h4, statusTexts]
  · simp [song_cmd, hne, hx, h1, h2, h3, h4, removeFile, List.mem_filter]

theorem song_success_trace_witness :
    statusTexts (song_cmd
      ⟨Except.ok [⟨some "Example Song", "/tmp/example_song.webm"⟩],
        none, none, true, none⟩ ["abba"] []).1 =
      ["Searching for “abba”...",
       "Found: Example Song\nUploading…",
       "Done! 🎵"] ∧
    "/tmp/example_song.webm" ∉ (song_cmd
      ⟨Except.ok [⟨some "Example Song", "/tmp/example_song.webm"⟩],
        none, none, true, none⟩ ["abba"] []).2 :=
  song_success_trace
    ⟨Except.ok [⟨some "Example Song", "/tmp/example_song.webm"⟩],
      none, none, true, none⟩ ["abba"] []
    ⟨some "Example Song", "/tmp/example_song.webm"⟩ []
    (by decide) rfl rfl rfl rfl rfl

/-- C2: running the shutdown hook on a state left by a completed
shutdown does not raise: the second webhook deregistration attempt fails
but its failure is swallowed and the hook completes. -/
theorem on_shutdown_second_call (s t : AppState)
    (h : on_shutdown s = Except.ok t) :
    (delete_webhook t).isOk = false ∧ (on_shutdown t).isOk = true := by
  have hinit : t.initialized = false := by
    cases hd : delete_webhook s with
    | ok u =>
      simp [on_shutdown, hd] at h
      rw [← h]
      rfl
    | error e =>
      simp [on_shutdown, hd] at h
      rw [← h]
      rfl
  refine ⟨?_, rfl⟩
  simp [delete_webhook, hinit, Except.isOk, Except.toBool]

theorem on_shutdown_second_call_witness :
    (delete_webhook ⟨false, false, false⟩).isOk = false ∧
    (on_shutdown (⟨false, false, false⟩ : AppState)).isOk = true :=
  on_shutdown_second_call ⟨true, true, true⟩ ⟨false, false, false⟩ rfl

/-- C3: for a /song invocation with a non-empty argument list, any
exception arising between the extraction call and the deletion step is
caught inside the handler, whose last observable action is editing the
status message to the text Error: followed by the exception message. -/
theorem song_error_reported (env : SongEnv) (args : List String)
    (files0 : List String) (m : String)
    (hargs : args ≠ []) (hfail : songFirstFailure env = some m) :
    ((song_cmd env args files0).1).getLast? =
      some (Effect.editText ("Error: " ++ m)) := by
  have hne : args.isEmpty = false := by
    cases args with
    | nil => exact absurd rfl hargs
    | cons a as => rfl
  obtain ⟨ex, ef, sd, uo, ed⟩ := env
  simp only [songFirstFailure] at hfail
  cases ex with
  | error e =>
    simp only [Option.some.injEq] at hfail
    subst hfail
    simp [song_cmd, hne]
  | ok entries =>
    cases entries with
    | nil =>
      simp only [Option.some.injEq] at hfail
      subst hfail
      simp [song_cmd, hne]
    | cons entry rest =>
      cases ef with
      | some e =>
        simp only [Option.some.injEq] at hfail
        subst hfail
        simp [song_cmd, hne]
      | none =>
        cases sd with
        | some e =>
          simp only [Option.some.injEq] at hfail
          subst hfail
          simp [song_cmd, hne]
        | none =>
          cases ed with
          | some e =>
            simp only [Option.some.injEq] at hfail
            subst hfail
            simp [song_cmd, hne]
          | none => exact absurd hfail (by simp)

theorem song_error_reported_witness :
    ((song_cmd ⟨Except.error "HTTP Error 403: Forbidden", none, none,
        true, none⟩ ["abba"] []).1).getLast? =
      some (Effect.editText "Error: HTTP Error 403: Forbidden") :=
  song_error_reported
    ⟨Except.error "HTTP Error 403: Forbidden", none, none, true, none⟩
    ["abba"] [] "HTTP Error 403: Forbidden" (by decide) rfl

/-- C4: a webhook POST whose path token differs from the configured one
gets HTTP 403 with no body, and the update queue is unchanged. -/
theorem webhook_wrong_token (cfg tok : String)
    (body : Except String UpdateObj) (q : List UpdateObj)
    (h : tok ≠ cfg) :
    (telegram_webhook cfg tok body q).1 = WebhookResponse.forbidden ∧
    statusCode (telegram_webhook cfg tok body q).1 = 403 ∧
    responseBody (telegram_webhook cfg tok body q).1 = none ∧
    (telegram_webhook cfg tok body q).2 = q := by
  simp [telegram_webhook, h, statusCode, responseBody]

theorem webhook_wrong_token_witness :
    (telegram_webhook "secret" "wrong" (Except.ok ⟨"u1"⟩) []).1 =
      WebhookResponse.forbidden ∧
    statusCode (telegram_webhook "secret" "wrong"
      (Except.ok ⟨"u1"⟩) []).1 = 403 ∧
    responseBody (telegram_webhook "secret" "wrong"
      (Except.ok ⟨"u1"⟩) []).1 = none ∧
    (telegram_webhook "secret" "wrong" (Except.ok ⟨"u1"⟩) []).2 = [] :=
  webhook_wrong_token "secret" "wrong" (Except.ok ⟨"u1"⟩) [] (by decide)

/-- C5: a webhook POST with the configured token and a well-formed
update body gets HTTP 200 with body ok = true, and exactly one item is
appended to the update queue. -/
theorem webhook_valid_enqueue (cfg : String) (u : UpdateObj)
    (q : List UpdateObj) :
    (telegram_webhook cfg cfg (Except.ok u) q).1 = WebhookResponse.okTrue ∧
    statusCode (telegram_webhook cfg cfg (Except.ok u) q).1 = 200 ∧
    responseBody (telegram_webhook cfg cfg (Except.ok u) q).1 =
      some ⟨true⟩ ∧
    (telegram_webhook cfg cfg (Except.ok u) q).2 = q ++ [u] ∧
    (telegram_webhook cfg cfg (Except.ok u) q).2.length = q.length + 1 := by
  simp [telegram_webhook, statusCode, responseBody]

/-- C6: /song with an empty argument list only replies with the usage
text: no extraction call, no status edit, no upload, no file change, for
every collaborator environment. -/
theorem song_empty_args (env : SongEnv) (files0 : List String) :
    song_cmd env [] files0 =
      ([Effect.replyText "Usage: /song <song name>"], files0) := rfl

/-- C7: the uploaded document carries the downloaded file's name as
filename and the display title as caption, the display title being the
title metadata when present and non-empty and the file's base name (its
stem) otherwise. -/
theorem song_upload_doc_fields (env : SongEnv) (args : List String)
    (files0 : List String) (entry : Entry) (rest : List Entry)
    (hargs : args ≠ [])
    (hx : env.extract = Except.ok (entry :: rest))
    (h1 : env.editFoundErr = none) (h2 : env.sendDocErr = none) :
    Effect.sendDocument (pathName entry.filepath) (displayTitle entry) ∈
      (song_cmd env args files0).1 ∧
    (entry.title = none → displayTitle entry = pathStem entry.filepath) ∧
    (∀ t, entry.title = some t → t ≠ "" → displayTitle entry = t) := by
  have hne : args.isEmpty = false := by
    cases args with
    | nil => exact absurd rfl hargs
    | cons a as => rfl
  refine ⟨?_, ?_, ?_⟩
  · cases hd : env.editDoneErr with
    | some e => simp [song_cmd, hne, hx, h1, h2, hd]
    | none => simp [song_cmd, hne, hx, h1, h2, hd]
  · intro ht
    simp [displayTitle, ht]
  · intro t ht hne2
    simp [displayTitle, ht, hne2]

theorem song_upload_doc_fields_witness :
    Effect.sendDocument "example_song.webm" "Example Song" ∈
      (song_cmd ⟨Except.ok [⟨some "Example Song",
        "/tmp/example_song.webm"⟩], none, none, true, none⟩
        ["abba"] []).1 :=
  (song_upload_doc_fields
    ⟨Except.ok [⟨some "Example Song", "/tmp/example_song.webm"⟩],
      none, none, true, none⟩ ["abba"] []
    ⟨some "Example Song", "/tmp/example_song.webm"⟩ []
    (by decide) rfl rfl rfl).1

/-- C8: GET /health returns 200 with body ok = true whatever the state
of the chat client. -/
theorem health_always_ok (s : AppState) : health s = (200, ⟨true⟩) := rfl

/-- C9: a webhook POST with the configured token but a malformed body
raises at the JSON parse, before the enqueue: the queue is unchanged and
no 200 response is produced. -/
theorem webhook_malformed_body (cfg e : String) (q : List UpdateObj) :
    (telegram_webhook cfg cfg (Except.error e) q).2 = q ∧
    (telegram_webhook cfg cfg (Except.error e) q).1 =
      WebhookResponse.serverError e := by
  simp [telegram_webhook]

/-- C10: an empty BOT_TOKEN environment variable behaves exactly like an
absent one: the token comes from the interactive prompt with surrounding
whitespace stripped. -/
theorem bot_token_empty_env (s : String) :
    configToken (some "") s = configToken none s ∧
    configToken none s = pyStrip s :=
  ⟨rfl, rfl⟩

end MusicBot
